import Mathlib

/-!
# Admission validation of the `Module` resource

A shallow embedding of `api/v1beta1/module_webhook.go`: the three webhook entry
points `ValidateCreate`, `ValidateUpdate`, `ValidateDelete` and the two rule
groups `validateKernelMapping` and `validateModprobe` they run.

Conventions of the embedding.

* A Go `error` result is an `Except String Unit`: `.ok ()` is the `nil` error
  (the request is accepted) and `.error msg` is an error whose `Error()` text
  is `msg` (the request is rejected with that message).
* `regexp.Compile` belongs to the Go standard library, not to this package.  It
  is a parameter `compile` of the functions that call it: `compile expr` is
  `.ok ()` when `regexp.Compile(expr)` returns a `nil` error and `.error text`
  when it returns an error whose `Error()` text is `text`.  The compiled
  program is discarded by the caller (`_, err := ...`), so it is not modelled.
* `fmt.Errorf("...%d...", idx)` prints the loop index in decimal, which is
  `toString idx` for a natural number; `%v` of an error prints its text.
* A nil pointer `*ModprobeArgs` is `none`; a Go slice is a list, and a nil
  slice and an empty slice both have length `0`.
* The informational log line written by `ValidateCreate` and `ValidateUpdate`
  goes to the package logger and is never read back by the rules; the
  functions `Module.ValidateCreate` and `Module.ValidateUpdate` keep the
  verdict only.  The runs `ValidateCreateRun`, `ValidateUpdateRun` and
  `ValidateDeleteRun` pass the logger's lines and the resource through as
  explicit state and make a nil dereference visible as a run without result.
-/

namespace KMM

/-! ## Data model

The Go declarations of the API types live in a file of the package that is not
part of the sources at hand.  Each structure below keeps the fields that the
webhook reads, under the names the webhook uses for them, with the types its
operations on them require (comparison with `""`, `!= nil`, `len`, `range`). -/

/-- Modelled from the spec: the Go struct `ModprobeArgs`, the raw-arguments
structure with a `load` and an `unload` sequence of strings. -/
structure ModprobeArgs where
  Load : List String
  Unload : List String
  deriving DecidableEq, Repr

/-- Modelled from the spec: the Go struct `ModprobeSpec`, the loading-argument
block with an optional `moduleName` and an optional raw-arguments structure;
`RawArgs` is a pointer, `none` when nil. -/
structure ModprobeSpec where
  ModuleName : String
  RawArgs : Option ModprobeArgs
  deriving DecidableEq, Repr

/-- Modelled from the spec: the Go struct `KernelMapping`, an entry with a
`literal` selector, a `regexp` selector and an image override, each optional
(empty when unset). -/
structure KernelMapping where
  ContainerImage : String
  Literal : String
  Regexp : String
  deriving DecidableEq, Repr

/-- Modelled from the spec: the Go struct `ModuleLoaderContainerSpec`, the
loader container with its default image, its ordered list of kernel mappings
and its loading-argument block. -/
structure ModuleLoaderContainerSpec where
  Modprobe : ModprobeSpec
  ContainerImage : String
  KernelMappings : List KernelMapping
  deriving DecidableEq, Repr

/-- Modelled from the spec: the Go struct `ModuleLoaderSpec`, which holds the
loader-container block. -/
structure ModuleLoaderSpec where
  Container : ModuleLoaderContainerSpec
  deriving DecidableEq, Repr

/-- Modelled from the spec: the Go struct `ModuleSpec`, the desired state of
the resource. -/
structure ModuleSpec where
  ModuleLoader : ModuleLoaderSpec
  deriving DecidableEq, Repr

/-- Modelled from the spec: the Go struct `Module`, the resource with its
identity (name and namespace) and its desired state. -/
structure Module where
  Name : String
  Namespace : String
  Spec : ModuleSpec
  deriving DecidableEq, Repr

/-- The type of `regexp.Compile` as the webhook uses it: only the error is
inspected. -/
abbrev Compiler := String → Except String Unit

/-! ## Rule group A: `validateKernelMapping` -/

/-- One iteration of the loop `for idx, km := range container.KernelMappings`
of `validateKernelMapping`: `some msg` when the iteration returns the error
`msg`, `none` when it falls through to the next iteration. -/
def kernelMappingStep (compile : Compiler) (container : ModuleLoaderContainerSpec)
    (idx : Nat) (km : KernelMapping) : Option String :=
  if km.Regexp ≠ "" ∧ km.Literal ≠ "" then
    some ("regexp and literal are mutually exclusive properties at kernelMappings["
      ++ toString idx ++ "]")
  else if km.Regexp = "" ∧ km.Literal = "" then
    some ("regexp or literal must be set at kernelMappings[" ++ toString idx ++ "]")
  else
    match compile km.Regexp with
    | .error err => some ("invalid regexp at index " ++ toString idx ++ ": " ++ err)
    | .ok _ =>
      if container.ContainerImage = "" ∧ km.ContainerImage = "" then
        some ("missing spec.moduleLoader.container.kernelMappings["
          ++ toString idx ++ "].containerImage")
      else
        none

/-- The loop of `validateKernelMapping` over the mappings that remain, `idx`
being the index of the first of them; after the last one the function returns
`nil`. -/
def rangeKernelMappings (compile : Compiler) (container : ModuleLoaderContainerSpec) :
    Nat → List KernelMapping → Except String Unit
  | _, [] => .ok ()
  | idx, km :: rest =>
    match kernelMappingStep compile container idx km with
    | some msg => .error msg
    | none => rangeKernelMappings compile container (idx + 1) rest

/-- The method `(m *Module) validateKernelMapping()`. -/
def Module.validateKernelMapping (compile : Compiler) (m : Module) : Except String Unit :=
  let container := m.Spec.ModuleLoader.Container
  rangeKernelMappings compile container 0 container.KernelMappings

/-! ## Rule group B: `validateModprobe` -/

/-- The method `(m *Module) validateModprobe()`. -/
def Module.validateModprobe (m : Module) : Except String Unit :=
  let modprobe := m.Spec.ModuleLoader.Container.Modprobe
  let moduleNameDefined : Bool := modprobe.ModuleName != ""
  let rawLoadArgsDefined : Bool :=
    match modprobe.RawArgs with
    | none => false
    | some rawArgs => decide (rawArgs.Load.length > 0)
  let rawUnloadArgsDefined : Bool :=
    match modprobe.RawArgs with
    | none => false
    | some rawArgs => decide (rawArgs.Unload.length > 0)
  if moduleNameDefined then
    if rawLoadArgsDefined || rawUnloadArgsDefined then
      .error "rawArgs cannot be set when moduleName is set"
    else
      .ok ()
  else if !rawLoadArgsDefined || !rawUnloadArgsDefined then
    .error "load and unload rawArgs must be set when moduleName is unset"
  else
    .ok ()

/-! ## Webhook entry points -/

/-- The method `(m *Module) ValidateCreate()`. -/
def Module.ValidateCreate (compile : Compiler) (m : Module) : Except String Unit :=
  match m.validateKernelMapping compile with
  | .error err => .error ("failed to validate kernel mappings: " ++ err)
  | .ok _ => m.validateModprobe

/-- The method `(m *Module) ValidateUpdate(_ runtime.Object)`; the prior object
is an interface value of any dynamic type, which the method never names. -/
def Module.ValidateUpdate {Obj : Type} (compile : Compiler) (m : Module) (_ : Obj) :
    Except String Unit :=
  match m.validateKernelMapping compile with
  | .error err => .error ("failed to validate kernel mappings: " ++ err)
  | .ok _ => m.validateModprobe

/-- The method `(m *Module) ValidateDelete()`. -/
def Module.ValidateDelete (_ : Module) : Except String Unit :=
  .ok ()

/-! ## Vocabulary of the specification -/

/-- Exactly one of the two selectors `literal` and `regexp` is set. -/
def KernelMapping.oneSelector (km : KernelMapping) : Prop :=
  (km.Literal ≠ "" ∧ km.Regexp = "") ∨ (km.Literal = "" ∧ km.Regexp ≠ "")

/-- A kernel mapping violates none of the four rules: exactly one selector is
set, the `regexp` field compiles, and an image is resolvable from the mapping
or from the container. -/
def MappingOk (compile : Compiler) (container : ModuleLoaderContainerSpec)
    (km : KernelMapping) : Prop :=
  km.oneSelector ∧ compile km.Regexp = .ok () ∧
    (km.ContainerImage ≠ "" ∨ container.ContainerImage ≠ "")

deriving instance DecidableEq for Except

instance (km : KernelMapping) : Decidable km.oneSelector := by
  unfold KernelMapping.oneSelector
  infer_instance

instance (compile : Compiler) (container : ModuleLoaderContainerSpec) (km : KernelMapping) :
    Decidable (MappingOk compile container km) := by
  unfold MappingOk
  infer_instance

/-- The raw load sequence is set: `rawArgs` is present and `load` is non-empty. -/
def ModprobeSpec.rawLoadSet (mp : ModprobeSpec) : Prop :=
  ∃ rawArgs, mp.RawArgs = some rawArgs ∧ rawArgs.Load ≠ []

/-- The raw unload sequence is set: `rawArgs` is present and `unload` is
non-empty. -/
def ModprobeSpec.rawUnloadSet (mp : ModprobeSpec) : Prop :=
  ∃ rawArgs, mp.RawArgs = some rawArgs ∧ rawArgs.Unload ≠ []

/-- The kernel mappings of a resource. -/
abbrev Module.mappings (m : Module) : List KernelMapping :=
  m.Spec.ModuleLoader.Container.KernelMappings

/-- The loader-container block of a resource. -/
abbrev Module.container (m : Module) : ModuleLoaderContainerSpec :=
  m.Spec.ModuleLoader.Container

/-- The resource with its loader-container block replaced. -/
def Module.withContainer (m : Module) (c : ModuleLoaderContainerSpec) : Module :=
  { m with Spec := { ModuleLoader := { Container := c } } }

/-- The resource with its loading-argument block replaced. -/
def Module.withModprobe (m : Module) (mp : ModprobeSpec) : Module :=
  m.withContainer { m.container with Modprobe := mp }

/-- The resource with its list of kernel mappings replaced. -/
def Module.withMappings (m : Module) (kms : List KernelMapping) : Module :=
  m.withContainer { m.container with KernelMappings := kms }

/-- The resource with the container's default `containerImage` replaced. -/
def Module.withContainerImage (m : Module) (img : String) : Module :=
  m.withContainer { m.container with ContainerImage := img }

/-- The list with the `containerImage` of the mapping at index `k` replaced; a
list without an index `k` is left as it is. -/
def replaceImageAt (img : String) : Nat → List KernelMapping → List KernelMapping
  | _, [] => []
  | 0, km :: rest => { km with ContainerImage := img } :: rest
  | k + 1, km :: rest => km :: replaceImageAt img k rest

/-- The resource with the `containerImage` of the mapping at index `k`
replaced. -/
def Module.withMappingImage (m : Module) (k : Nat) (img : String) : Module :=
  m.withMappings (replaceImageAt img k m.mappings)

/-! ## The calls as runs: logger state and nil dereference

The entry points are methods on a pointer to the resource and they hand a line
to the package logger before they validate.  The definitions below follow the
same source text as the functions above, keeping what those leave out: the
state a call can touch (the resource behind the receiver, the lines handed to
the logger) is passed through explicitly, and a run that would dereference a
nil pointer has no result (`none`). -/

/-- A line handed to the logger by `modulelog.Info(msg, keysAndValues...)`. -/
structure LogLine where
  msg : String
  keysAndValues : List String
  deriving DecidableEq, Repr

/-- What a call of an entry point can touch: the resource its receiver points
to and the lines the package logger has been handed so far. -/
structure World where
  resource : Module
  log : List LogLine
  deriving DecidableEq, Repr

/-- The call `modulelog.Info(msg, "name", m.Name, "namespace", m.Namespace)`. -/
def logInfo (msg : String) (w : World) : World :=
  { w with
    log := w.log ++
      [LogLine.mk msg ["name", w.resource.Name, "namespace", w.resource.Namespace]] }

/-- The Go expression `a && b`: `b` is evaluated only when `a` is true.  The
right operand is `none` when its evaluation panics. -/
def goAnd (a : Bool) (b : Option Bool) : Option Bool :=
  if a then b else some false

/-- The method `validateModprobe` with the dereference of the pointer
`modprobe.RawArgs` made explicit: `modprobe.RawArgs.Load` has a value only when
the pointer is not nil, and the run has no result (`none`) when a nil pointer
is dereferenced. -/
def Module.validateModprobeRun (m : Module) : Option (Except String Unit) := do
  let modprobe := m.Spec.ModuleLoader.Container.Modprobe
  let moduleNameDefined : Bool := modprobe.ModuleName != ""
  let rawLoadArgsDefined ← goAnd (modprobe.RawArgs != none)
    (modprobe.RawArgs.map fun rawArgs => decide (rawArgs.Load.length > 0))
  let rawUnloadArgsDefined ← goAnd (modprobe.RawArgs != none)
    (modprobe.RawArgs.map fun rawArgs => decide (rawArgs.Unload.length > 0))
  if moduleNameDefined then
    if rawLoadArgsDefined || rawUnloadArgsDefined then
      pure (.error "rawArgs cannot be set when moduleName is set")
    else
      pure (.ok ())
  else if !rawLoadArgsDefined || !rawUnloadArgsDefined then
    pure (.error "load and unload rawArgs must be set when moduleName is unset")
  else
    pure (.ok ())

/-- The method `ValidateCreate` as a run: the log line is written first, then
the two rule groups run on the resource; the result is the verdict and the
state after the call, or `none` when the run panics. -/
def ValidateCreateRun (compile : Compiler) (w : World) :
    Option (Except String Unit × World) := do
  let w₁ := logInfo "Validating Module creation" w
  match w₁.resource.validateKernelMapping compile with
  | .error err => pure (.error ("failed to validate kernel mappings: " ++ err), w₁)
  | .ok _ =>
    let verdict ← w₁.resource.validateModprobeRun
    pure (verdict, w₁)

/-- The method `ValidateUpdate` as a run. -/
def ValidateUpdateRun {Obj : Type} (compile : Compiler) (w : World) (_ : Obj) :
    Option (Except String Unit × World) := do
  let w₁ := logInfo "Validating Module update" w
  match w₁.resource.validateKernelMapping compile with
  | .error err => pure (.error ("failed to validate kernel mappings: " ++ err), w₁)
  | .ok _ =>
    let verdict ← w₁.resource.validateModprobeRun
    pure (verdict, w₁)

/-- The method `ValidateDelete` as a run: it returns `nil` at once. -/
def ValidateDeleteRun (w : World) : Option (Except String Unit × World) :=
  pure (.ok (), w)

/-! ## Concrete inputs used in the examples -/

/-- A pattern compiler for the worked examples.  It reports Go's diagnostic for
the unbalanced group `(` and compiles every other pattern; it agrees with
`regexp.Compile` on the patterns the examples use (the empty pattern and
`5\.14\..*` compile, `(` does not). -/
def exampleCompile : Compiler := fun expr =>
  if expr = "(" then .error "error parsing regexp: missing closing ): `(`" else .ok ()

/-- A resource with empty metadata around the given container block. -/
def moduleOf (container : ModuleLoaderContainerSpec) : Module :=
  { Name := "", Namespace := "", Spec := { ModuleLoader := { Container := container } } }

/-- The zero value of the Go struct `Module`. -/
def zeroModule : Module :=
  moduleOf { Modprobe := { ModuleName := "", RawArgs := none }, ContainerImage := "",
             KernelMappings := [] }

/-- A loading-argument block in named-module mode. -/
def namedModprobe : ModprobeSpec := { ModuleName := "foo", RawArgs := none }

/-- A loading-argument block in raw-argument mode. -/
def rawModprobe : ModprobeSpec :=
  { ModuleName := "", RawArgs := some { Load := ["insmod a"], Unload := ["rmmod a"] } }

/-- One mapping with both selectors set. -/
def bothSelectorsModule : Module :=
  moduleOf { Modprobe := namedModprobe, ContainerImage := "",
             KernelMappings := [⟨"img", "5.14.0", "5\\.14\\..*"⟩] }

/-- One mapping whose pattern is the unbalanced group. -/
def badRegexpModule : Module :=
  moduleOf { Modprobe := namedModprobe, ContainerImage := "",
             KernelMappings := [⟨"img", "", "("⟩] }

/-- A mapping without any selector at index 0, followed at index 1 by a mapping
whose pattern is the unbalanced group. -/
def shadowedRegexpModule : Module :=
  moduleOf { Modprobe := namedModprobe, ContainerImage := "",
             KernelMappings := [⟨"img", "", ""⟩, ⟨"img", "", "("⟩] }

/-- Two invalid mappings: no image is resolvable at index 0, no selector is set
at index 1. -/
def twoInvalidModule : Module :=
  moduleOf { Modprobe := namedModprobe, ContainerImage := "",
             KernelMappings := [⟨"", "5.14.0", ""⟩, ⟨"img", "", ""⟩] }

/-- Literal-only mappings, the second of which relies on the container image. -/
def literalOnlyModule : Module :=
  moduleOf { Modprobe := namedModprobe, ContainerImage := "default-img",
             KernelMappings := [⟨"img", "5.14.0", ""⟩, ⟨"", "5.15.0", ""⟩] }

/-- One literal-only mapping and no image at either level. -/
def missingImageModule : Module :=
  moduleOf { Modprobe := namedModprobe, ContainerImage := "",
             KernelMappings := [⟨"", "5.14.0", ""⟩] }

/-- Named-module mode with a raw load sequence as well. -/
def conflictingModule : Module :=
  moduleOf { Modprobe := { ModuleName := "foo",
                           RawArgs := some { Load := ["insmod a"], Unload := [] } },
             ContainerImage := "", KernelMappings := [] }

/-- Raw-argument mode with both sequences. -/
def rawModule : Module :=
  moduleOf { Modprobe := rawModprobe, ContainerImage := "", KernelMappings := [] }

/-- Raw-argument mode with a load sequence and no unload sequence. -/
def incompleteRawModule : Module :=
  moduleOf { Modprobe := { ModuleName := "",
                           RawArgs := some { Load := ["insmod a"], Unload := [] } },
             ContainerImage := "", KernelMappings := [] }

/-- Named-module mode without raw arguments. -/
def namedModule : Module :=
  moduleOf { Modprobe := namedModprobe, ContainerImage := "", KernelMappings := [] }

/-- Named-module mode with a raw-arguments structure that is present and
empty. -/
def emptyRawNamedModule : Module :=
  moduleOf { Modprobe := { ModuleName := "foo",
                           RawArgs := some { Load := [], Unload := [] } },
             ContainerImage := "", KernelMappings := [] }

/-- One mapping that fails every check: both selectors set, a pattern that
does not compile, no image at either level. -/
def allChecksFailModule : Module :=
  moduleOf { Modprobe := namedModprobe, ContainerImage := "",
             KernelMappings := [⟨"", "5.14.0", "("⟩] }

/-- One mapping with only a pattern, which does not compile, and no image at
either level. -/
def regexpNoImageModule : Module :=
  moduleOf { Modprobe := namedModprobe, ContainerImage := "",
             KernelMappings := [⟨"", "", "("⟩] }

/-- A valid mapping followed by one without a selector. -/
def validThenInvalidModule : Module :=
  moduleOf { Modprobe := namedModprobe, ContainerImage := "",
             KernelMappings := [⟨"img", "5.14.0", ""⟩, ⟨"img", "", ""⟩] }

/-! ## Lemmas about the two rule groups -/

theorem except_unit_cases (r : Except String Unit) : r = .ok () ∨ ∃ e, r = .error e := by
  cases r with
  | error e => exact Or.inr ⟨e, rfl⟩
  | ok u => cases u; exact Or.inl rfl

/-- An iteration falls through exactly on a mapping that violates no rule. -/
theorem kernelMappingStep_eq_none_iff (compile : Compiler)
    (container : ModuleLoaderContainerSpec) (idx : Nat) (km : KernelMapping) :
    kernelMappingStep compile container idx km = none ↔ MappingOk compile container km := by
  unfold kernelMappingStep MappingOk KernelMapping.oneSelector
  by_cases hr : km.Regexp = "" <;> by_cases hl : km.Literal = "" <;>
    by_cases hc : container.ContainerImage = "" <;> by_cases hk : km.ContainerImage = "" <;>
    rcases except_unit_cases (compile km.Regexp) with h | ⟨e, h⟩ <;>
    simp [hr, hl, hc, hk, h] <;> simp_all

/-- Whether an iteration returns does not depend on the index. -/
theorem kernelMappingStep_isSome_iff (compile : Compiler)
    (container : ModuleLoaderContainerSpec) (idx : Nat) (km : KernelMapping) :
    (∃ msg, kernelMappingStep compile container idx km = some msg) ↔
      ¬ MappingOk compile container km := by
  rw [← kernelMappingStep_eq_none_iff compile container idx km]
  cases kernelMappingStep compile container idx km <;> simp

/-- The loop returns `nil` exactly when every remaining mapping violates no
rule. -/
theorem rangeKernelMappings_ok_iff (compile : Compiler)
    (container : ModuleLoaderContainerSpec) (kms : List KernelMapping) (idx : Nat) :
    rangeKernelMappings compile container idx kms = .ok () ↔
      ∀ km ∈ kms, MappingOk compile container km := by
  induction kms generalizing idx with
  | nil => simp [rangeKernelMappings]
  | cons km rest ih =>
    unfold rangeKernelMappings
    cases hs : kernelMappingStep compile container idx km with
    | some msg =>
      have hbad : ¬ MappingOk compile container km :=
        (kernelMappingStep_isSome_iff compile container idx km).mp ⟨msg, hs⟩
      simp [hbad]
    | none =>
      have hgood : MappingOk compile container km :=
        (kernelMappingStep_eq_none_iff compile container idx km).mp hs
      simp [hgood, ih]

/-- The loop returns the error of the first iteration that returns one. -/
theorem rangeKernelMappings_first (compile : Compiler)
    (container : ModuleLoaderContainerSpec) (kms : List KernelMapping) (idx i : Nat)
    (km : KernelMapping) (msg : String) (hi : kms[i]? = some km)
    (hbefore : ∀ j, j < i → ∀ kj, kms[j]? = some kj → MappingOk compile container kj)
    (hstep : kernelMappingStep compile container (idx + i) km = some msg) :
    rangeKernelMappings compile container idx kms = .error msg := by
  induction kms generalizing idx i with
  | nil => simp at hi
  | cons k rest ih =>
    unfold rangeKernelMappings
    cases i with
    | zero =>
      simp at hi
      subst hi
      simp at hstep
      simp [hstep]
    | succ i =>
      have hk : kernelMappingStep compile container idx k = none :=
        (kernelMappingStep_eq_none_iff compile container idx k).mpr
          (hbefore 0 (Nat.succ_pos i) k (by simp))
      simp only [hk]
      apply ih (idx + 1) i
      · simpa using hi
      · intro j hj kj hkj
        exact hbefore (j + 1) (Nat.succ_lt_succ hj) kj (by simpa using hkj)
      · have harith : idx + 1 + i = idx + (i + 1) := by omega
        rw [harith]
        exact hstep

/-- Rule group B accepts exactly in the two consistent modes. -/
theorem validateModprobe_ok_iff (m : Module) :
    m.validateModprobe = .ok () ↔
      (m.container.Modprobe.ModuleName ≠ "" ∧ ¬ m.container.Modprobe.rawLoadSet ∧
          ¬ m.container.Modprobe.rawUnloadSet) ∨
      (m.container.Modprobe.ModuleName = "" ∧ m.container.Modprobe.rawLoadSet ∧
          m.container.Modprobe.rawUnloadSet) := by
  unfold Module.validateModprobe ModprobeSpec.rawLoadSet ModprobeSpec.rawUnloadSet
  simp only [Module.container]
  by_cases hn : m.Spec.ModuleLoader.Container.Modprobe.ModuleName = ""
  · cases hra : m.Spec.ModuleLoader.Container.Modprobe.RawArgs with
    | none => simp [hn]
    | some ra =>
      by_cases hl : ra.Load = [] <;> by_cases hu : ra.Unload = [] <;>
        simp [hn, hl, hu, List.length_pos]
  · cases hra : m.Spec.ModuleLoader.Container.Modprobe.RawArgs with
    | none => simp [hn]
    | some ra =>
      by_cases hl : ra.Load = [] <;> by_cases hu : ra.Unload = [] <;>
        simp [hn, hl, hu, List.length_pos]

/-- The entry point accepts exactly when both rule groups do. -/
theorem validateCreate_ok_iff (compile : Compiler) (m : Module) :
    m.ValidateCreate compile = .ok () ↔
      m.validateKernelMapping compile = .ok () ∧ m.validateModprobe = .ok () := by
  unfold Module.ValidateCreate
  rcases except_unit_cases (m.validateKernelMapping compile) with h | ⟨e, h⟩ <;> simp [h]

/-- A rejection by rule group A is surfaced with the fixed prefix. -/
theorem validateCreate_of_mapping_error (compile : Compiler) (m : Module) (e : String)
    (h : m.validateKernelMapping compile = .error e) :
    m.ValidateCreate compile = .error ("failed to validate kernel mappings: " ++ e) := by
  unfold Module.ValidateCreate
  simp [h]

/-! ## The entry points -/

/-- C1: `ValidateCreate` accepts if and only if (a) every kernel mapping has
exactly one of `literal`/`regexp` non-empty, a `regexp` that compiles, and a
non-empty `containerImage` on the mapping or on the container, and (b) either
`moduleName` is non-empty and neither raw sequence is non-empty, or
`moduleName` is empty and `rawArgs` is present with both `load` and `unload`
non-empty. -/
theorem validateCreate_accepts_iff (compile : Compiler) (m : Module) :
    m.ValidateCreate compile = .ok () ↔
      (∀ km ∈ m.Spec.ModuleLoader.Container.KernelMappings,
          ((km.Literal ≠ "" ∧ km.Regexp = "") ∨ (km.Literal = "" ∧ km.Regexp ≠ "")) ∧
          compile km.Regexp = .ok () ∧
          (km.ContainerImage ≠ "" ∨ m.Spec.ModuleLoader.Container.ContainerImage ≠ "")) ∧
      ((m.Spec.ModuleLoader.Container.Modprobe.ModuleName ≠ "" ∧
          ¬ (∃ rawArgs, m.Spec.ModuleLoader.Container.Modprobe.RawArgs = some rawArgs ∧
              rawArgs.Load ≠ []) ∧
          ¬ (∃ rawArgs, m.Spec.ModuleLoader.Container.Modprobe.RawArgs = some rawArgs ∧
              rawArgs.Unload ≠ [])) ∨
        (m.Spec.ModuleLoader.Container.Modprobe.ModuleName = "" ∧
          ∃ rawArgs, m.Spec.ModuleLoader.Container.Modprobe.RawArgs = some rawArgs ∧
            rawArgs.Load ≠ [] ∧ rawArgs.Unload ≠ [])) := by
  rw [validateCreate_ok_iff, validateModprobe_ok_iff]
  unfold Module.validateKernelMapping
  simp only [rangeKernelMappings_ok_iff]
  unfold MappingOk KernelMapping.oneSelector ModprobeSpec.rawLoadSet ModprobeSpec.rawUnloadSet
  simp only [Module.container]
  constructor
  · rintro ⟨ha, hb⟩
    refine ⟨ha, ?_⟩
    rcases hb with hb | ⟨hn, ⟨ra, hra, hl⟩, ⟨ra2, hra2, hu⟩⟩
    · exact Or.inl hb
    · refine Or.inr ⟨hn, ra, hra, hl, ?_⟩
      rw [hra] at hra2
      cases hra2
      exact hu
  · rintro ⟨ha, hb⟩
    refine ⟨ha, ?_⟩
    rcases hb with hb | ⟨hn, ra, hra, hl, hu⟩
    · exact Or.inl hb
    · exact Or.inr ⟨hn, ⟨ra, hra, hl⟩, ⟨ra, hra, hu⟩⟩

/-- C2: `ValidateUpdate` on a new resource returns exactly the result of
`ValidateCreate` on it (verdict and message), whatever the prior object is, so
two runs with different prior objects give the same result. -/
theorem validateUpdate_eq_validateCreate (compile : Compiler) (m : Module)
    {Obj₁ Obj₂ : Type} (old₁ : Obj₁) (old₂ : Obj₂) :
    m.ValidateUpdate compile old₁ = m.ValidateCreate compile ∧
      m.ValidateUpdate compile old₁ = m.ValidateUpdate compile old₂ :=
  ⟨rfl, rfl⟩

/-- C3: `ValidateDelete` accepts every resource; the zero-valued resource and
the resources that `ValidateCreate` rejects are among them. -/
theorem validateDelete_accepts (m : Module) :
    m.ValidateDelete = .ok () ∧ zeroModule.ValidateDelete = .ok () ∧
      ∀ compile : Compiler, m.ValidateCreate compile ≠ .ok () → m.ValidateDelete = .ok () :=
  ⟨rfl, rfl, fun _ _ => rfl⟩

/-! ## Rule group A: messages and fail-fast order -/

/-- The iteration reads the container only through its default image. -/
theorem kernelMappingStep_congr (compile : Compiler) (c c' : ModuleLoaderContainerSpec)
    (h : c'.ContainerImage = c.ContainerImage) (idx : Nat) (km : KernelMapping) :
    kernelMappingStep compile c' idx km = kernelMappingStep compile c idx km := by
  unfold kernelMappingStep
  rw [h]

theorem mappingOk_congr (compile : Compiler) (c c' : ModuleLoaderContainerSpec)
    (h : c'.ContainerImage = c.ContainerImage) (km : KernelMapping) :
    MappingOk compile c' km ↔ MappingOk compile c km := by
  unfold MappingOk
  rw [h]

theorem kernelMappingStep_both (compile : Compiler) (c : ModuleLoaderContainerSpec)
    (idx : Nat) (km : KernelMapping) (hr : km.Regexp ≠ "") (hl : km.Literal ≠ "") :
    kernelMappingStep compile c idx km =
      some ("regexp and literal are mutually exclusive properties at kernelMappings["
        ++ toString idx ++ "]") := by
  simp [kernelMappingStep, hr, hl]

theorem kernelMappingStep_neither (compile : Compiler) (c : ModuleLoaderContainerSpec)
    (idx : Nat) (km : KernelMapping) (hr : km.Regexp = "") (hl : km.Literal = "") :
    kernelMappingStep compile c idx km =
      some ("regexp or literal must be set at kernelMappings[" ++ toString idx ++ "]") := by
  simp [kernelMappingStep, hr, hl]

theorem kernelMappingStep_invalid (compile : Compiler) (c : ModuleLoaderContainerSpec)
    (idx : Nat) (km : KernelMapping) (e : String) (hone : km.oneSelector)
    (he : compile km.Regexp = .error e) :
    kernelMappingStep compile c idx km =
      some ("invalid regexp at index " ++ toString idx ++ ": " ++ e) := by
  unfold KernelMapping.oneSelector at hone
  rcases hone with ⟨hl, hr⟩ | ⟨hl, hr⟩
  · rw [hr] at he
    simp [kernelMappingStep, hr, hl, he]
  · simp [kernelMappingStep, hr, hl, he]

theorem kernelMappingStep_missing (compile : Compiler) (c : ModuleLoaderContainerSpec)
    (idx : Nat) (km : KernelMapping) (hone : km.oneSelector)
    (hok : compile km.Regexp = .ok ()) (hc : c.ContainerImage = "")
    (hk : km.ContainerImage = "") :
    kernelMappingStep compile c idx km =
      some ("missing spec.moduleLoader.container.kernelMappings[" ++ toString idx
        ++ "].containerImage") := by
  unfold KernelMapping.oneSelector at hone
  rcases hone with ⟨hl, hr⟩ | ⟨hl, hr⟩
  · rw [hr] at hok
    simp [kernelMappingStep, hr, hl, hok, hc, hk]
  · simp [kernelMappingStep, hr, hl, hok, hc, hk]

/-- The result of rule group A is the error of the first violating mapping. -/
theorem validateKernelMapping_first (compile : Compiler) (m : Module) (i : Nat)
    (km : KernelMapping) (msg : String) (hi : m.mappings[i]? = some km)
    (hbefore : ∀ j, j < i → ∀ kj, m.mappings[j]? = some kj → MappingOk compile m.container kj)
    (hstep : kernelMappingStep compile m.container i km = some msg) :
    m.validateKernelMapping compile = .error msg := by
  unfold Module.validateKernelMapping
  apply rangeKernelMappings_first compile m.container m.mappings 0 i km msg hi hbefore
  rw [Nat.zero_add]
  exact hstep

/-- The entry point surfaces the error of the first violating mapping. -/
theorem validateCreate_first (compile : Compiler) (m : Module) (i : Nat)
    (km : KernelMapping) (msg : String) (hi : m.mappings[i]? = some km)
    (hbefore : ∀ j, j < i → ∀ kj, m.mappings[j]? = some kj → MappingOk compile m.container kj)
    (hstep : kernelMappingStep compile m.container i km = some msg) :
    m.ValidateCreate compile = .error ("failed to validate kernel mappings: " ++ msg) :=
  validateCreate_of_mapping_error compile m msg
    (validateKernelMapping_first compile m i km msg hi hbefore hstep)

/-- A resource with a violating mapping is rejected by rule group A. -/
theorem validateKernelMapping_rejects_of_bad (compile : Compiler) (m : Module)
    (km : KernelMapping) (hmem : km ∈ m.mappings)
    (hbad : ¬ MappingOk compile m.container km) :
    ∃ e, m.validateKernelMapping compile = .error e := by
  rcases except_unit_cases (m.validateKernelMapping compile) with h | h
  · exfalso
    unfold Module.validateKernelMapping at h
    exact hbad ((rangeKernelMappings_ok_iff compile _ _ 0).mp h km hmem)
  · exact h

/-- A resource with a violating mapping is rejected by the entry point. -/
theorem validateCreate_rejects_of_bad (compile : Compiler) (m : Module)
    (km : KernelMapping) (hmem : km ∈ m.mappings)
    (hbad : ¬ MappingOk compile m.container km) :
    ∃ msg, m.ValidateCreate compile = .error msg := by
  obtain ⟨e, he⟩ := validateKernelMapping_rejects_of_bad compile m km hmem hbad
  exact ⟨_, validateCreate_of_mapping_error compile m e he⟩

/-- A list with a violating mapping has a first violating index. -/
theorem exists_first_violation (compile : Compiler) (c : ModuleLoaderContainerSpec)
    (kms : List KernelMapping) (h : ∃ km ∈ kms, ¬ MappingOk compile c km) :
    ∃ (i : Nat) (km : KernelMapping), kms[i]? = some km ∧ ¬ MappingOk compile c km ∧
      ∀ j : Nat, j < i → ∀ kj, kms[j]? = some kj → MappingOk compile c kj := by
  induction kms with
  | nil => simp at h
  | cons k rest ih =>
    by_cases hk : MappingOk compile c k
    · have hrest : ∃ km ∈ rest, ¬ MappingOk compile c km := by
        obtain ⟨km, hmem, hbad⟩ := h
        rcases List.mem_cons.mp hmem with rfl | hmem
        · exact absurd hk hbad
        · exact ⟨km, hmem, hbad⟩
      obtain ⟨i, km, hi, hbad, hbefore⟩ := ih hrest
      refine ⟨i + 1, km, by simpa using hi, hbad, ?_⟩
      intro j hj kj hkj
      cases j with
      | zero =>
        simp at hkj
        subst hkj
        exact hk
      | succ j => exact hbefore j (Nat.lt_of_succ_lt_succ hj) kj (by simpa using hkj)
    · exact ⟨0, k, by simp, hk, fun j hj => absurd hj (Nat.not_lt_zero j)⟩

theorem wrap_index_message (a b : String) (i : Nat) :
    "failed to validate kernel mappings: " ++ (a ++ toString i ++ b) =
      "failed to validate kernel mappings: " ++ a ++ toString i ++ b := by
  simp [String.append_assoc]

/-- C4: a resource with a mapping at index `i` whose `literal` and `regexp` are
both empty or both non-empty is rejected by `ValidateCreate`; when no mapping
before `i` violates a rule, the message is the mutual-exclusivity message for
index `i` if both are non-empty and the missing-selector message for index `i`
if both are empty. -/
theorem validateCreate_selector_violation (compile : Compiler) (m : Module) (i : Nat)
    (km : KernelMapping)
    (hi : m.Spec.ModuleLoader.Container.KernelMappings[i]? = some km)
    (hsel : (km.Literal = "" ∧ km.Regexp = "") ∨ (km.Literal ≠ "" ∧ km.Regexp ≠ "")) :
    (∃ msg, m.ValidateCreate compile = .error msg) ∧
      ((∀ j, j < i → ∀ kj, m.Spec.ModuleLoader.Container.KernelMappings[j]? = some kj →
          MappingOk compile m.Spec.ModuleLoader.Container kj) →
        (km.Literal ≠ "" ∧ km.Regexp ≠ "" →
          m.ValidateCreate compile = .error
            ("failed to validate kernel mappings: regexp and literal are mutually exclusive properties at kernelMappings["
              ++ toString i ++ "]")) ∧
        (km.Literal = "" ∧ km.Regexp = "" →
          m.ValidateCreate compile = .error
            ("failed to validate kernel mappings: regexp or literal must be set at kernelMappings["
              ++ toString i ++ "]"))) := by
  constructor
  · apply validateCreate_rejects_of_bad compile m km (List.getElem?_mem hi)
    unfold MappingOk KernelMapping.oneSelector
    rcases hsel with ⟨hl, hr⟩ | ⟨hl, hr⟩ <;> simp [hl, hr]
  · intro hbefore
    constructor
    · rintro ⟨hl, hr⟩
      rw [validateCreate_first compile m i km _ hi hbefore
        (kernelMappingStep_both compile _ i km hr hl), wrap_index_message]
      rfl
    · rintro ⟨hl, hr⟩
      rw [validateCreate_first compile m i km _ hi hbefore
        (kernelMappingStep_neither compile _ i km hr hl), wrap_index_message]
      rfl

/-- C4 at the resource with the single mapping
`{regexp: "5\\.14\\..*", literal: "5.14.0"}`, violating at index 0. -/
theorem validateCreate_selector_violation_witness :
    bothSelectorsModule.Spec.ModuleLoader.Container.KernelMappings[0]?
        = some ⟨"img", "5.14.0", "5\\.14\\..*"⟩ ∧
      bothSelectorsModule.ValidateCreate exampleCompile = .error
        "failed to validate kernel mappings: regexp and literal are mutually exclusive properties at kernelMappings[0]" :=
  ⟨rfl,
    ((validateCreate_selector_violation exampleCompile bothSelectorsModule 0
        ⟨"img", "5.14.0", "5\\.14\\..*"⟩ rfl (Or.inr ⟨by decide, by decide⟩)).2
      (fun (j : Nat) (hj : j < 0) => absurd hj (Nat.not_lt_zero j))).1 ⟨by decide, by decide⟩⟩

/-- The decimal index is part of every message built around it. -/
theorem index_infix (a b : String) (i : Nat) :
    (toString i).data <:+: (a ++ toString i ++ b).data :=
  ⟨a.data, b.data, by simp⟩

set_option maxRecDepth 100000 in
theorem one_not_in_missing_selector_zero :
    ¬ ((toString (1 : Nat)).data <:+:
      "failed to validate kernel mappings: regexp or literal must be set at kernelMappings[0]".data) := by
  decide

/-- C5 as stated fails: the resource has at index 1 a mapping whose `regexp`
is the uncompilable pattern `(`, yet the rejection of `ValidateCreate` and
`ValidateUpdate` is the missing-selector message of index 0, in which the
index 1 does not occur. -/
theorem uncompilable_regexp_index_shadowed :
    shadowedRegexpModule.Spec.ModuleLoader.Container.KernelMappings[1]?
        = some ⟨"img", "", "("⟩ ∧
      exampleCompile "(" = .error "error parsing regexp: missing closing ): `(`" ∧
      shadowedRegexpModule.ValidateCreate exampleCompile = .error
        "failed to validate kernel mappings: regexp or literal must be set at kernelMappings[0]" ∧
      shadowedRegexpModule.ValidateUpdate exampleCompile zeroModule = .error
        "failed to validate kernel mappings: regexp or literal must be set at kernelMappings[0]" ∧
      ¬ ((toString (1 : Nat)).data <:+:
        "failed to validate kernel mappings: regexp or literal must be set at kernelMappings[0]".data) :=
  ⟨rfl, rfl, rfl, rfl, one_not_in_missing_selector_zero⟩

/-- C5, amended: a resource with a mapping at index `i` whose `regexp` does not
compile is rejected by `ValidateCreate` and by `ValidateUpdate`; when no
mapping before `i` violates a rule, the rejection message contains the index
`i`. -/
theorem validate_rejects_uncompilable_regexp (compile : Compiler) (m : Module)
    {Obj : Type} (old : Obj) (i : Nat) (km : KernelMapping) (e : String)
    (hi : m.Spec.ModuleLoader.Container.KernelMappings[i]? = some km)
    (hbad : compile km.Regexp = .error e) :
    (∃ msg, m.ValidateCreate compile = .error msg ∧
        m.ValidateUpdate compile old = .error msg) ∧
      ((∀ j, j < i → ∀ kj, m.Spec.ModuleLoader.Container.KernelMappings[j]? = some kj →
          MappingOk compile m.Spec.ModuleLoader.Container kj) →
        ∃ msg, m.ValidateCreate compile = .error msg ∧
          m.ValidateUpdate compile old = .error msg ∧
          (toString i).data <:+: msg.data) := by
  constructor
  · have hnot : ¬ MappingOk compile m.container km := by
      unfold MappingOk
      simp [hbad]
    obtain ⟨msg, hmsg⟩ := validateCreate_rejects_of_bad compile m km (List.getElem?_mem hi) hnot
    exact ⟨msg, hmsg, hmsg⟩
  · intro hbefore
    by_cases hr : km.Regexp = "" <;> by_cases hl : km.Literal = ""
    · have h := validateCreate_first compile m i km _ hi hbefore
        (kernelMappingStep_neither compile _ i km hr hl)
      rw [wrap_index_message] at h
      exact ⟨_, h, h, index_infix _ _ i⟩
    · have h := validateCreate_first compile m i km _ hi hbefore
        (kernelMappingStep_invalid compile _ i km e (Or.inl ⟨hl, hr⟩) hbad)
      rw [String.append_assoc, wrap_index_message] at h
      exact ⟨_, h, h, index_infix _ _ i⟩
    · have h := validateCreate_first compile m i km _ hi hbefore
        (kernelMappingStep_invalid compile _ i km e (Or.inr ⟨hl, hr⟩) hbad)
      rw [String.append_assoc, wrap_index_message] at h
      exact ⟨_, h, h, index_infix _ _ i⟩
    · have h := validateCreate_first compile m i km _ hi hbefore
        (kernelMappingStep_both compile _ i km hr hl)
      rw [wrap_index_message] at h
      exact ⟨_, h, h, index_infix _ _ i⟩

/-- C5, amended, at the resource with the single mapping `{regexp: "("}`. -/
theorem validate_rejects_uncompilable_regexp_witness :
    badRegexpModule.Spec.ModuleLoader.Container.KernelMappings[0]? = some ⟨"img", "", "("⟩ ∧
      exampleCompile "(" = .error "error parsing regexp: missing closing ): `(`" ∧
      ∃ msg, badRegexpModule.ValidateCreate exampleCompile = .error msg ∧
        badRegexpModule.ValidateUpdate exampleCompile zeroModule = .error msg ∧
        (toString (0 : Nat)).data <:+: msg.data :=
  ⟨rfl, rfl,
    (validate_rejects_uncompilable_regexp exampleCompile badRegexpModule zeroModule 0
      ⟨"img", "", "("⟩ "error parsing regexp: missing closing ): `(`" rfl rfl).2
      (fun (j : Nat) (hj : j < 0) => absurd hj (Nat.not_lt_zero j))⟩

/-- An iteration that returns does so with one of the four messages, in the
order of the checks. -/
theorem kernelMappingStep_of_not_ok (compile : Compiler) (c : ModuleLoaderContainerSpec)
    (idx : Nat) (km : KernelMapping) (hbad : ¬ MappingOk compile c km) :
    kernelMappingStep compile c idx km =
        some ("regexp and literal are mutually exclusive properties at kernelMappings["
          ++ toString idx ++ "]") ∨
      kernelMappingStep compile c idx km =
        some ("regexp or literal must be set at kernelMappings[" ++ toString idx ++ "]") ∨
      (∃ e, compile km.Regexp = .error e ∧
        kernelMappingStep compile c idx km =
          some ("invalid regexp at index " ++ toString idx ++ ": " ++ e)) ∨
      kernelMappingStep compile c idx km =
        some ("missing spec.moduleLoader.container.kernelMappings[" ++ toString idx
          ++ "].containerImage") := by
  by_cases hr : km.Regexp = "" <;> by_cases hl : km.Literal = ""
  · exact Or.inr (Or.inl (kernelMappingStep_neither compile c idx km hr hl))
  · rcases except_unit_cases (compile km.Regexp) with hok | ⟨e, he⟩
    · refine Or.inr (Or.inr (Or.inr ?_))
      have himg : c.ContainerImage = "" ∧ km.ContainerImage = "" := by
        by_contra hcon
        apply hbad
        refine ⟨Or.inl ⟨hl, hr⟩, hok, ?_⟩
        by_cases hk : km.ContainerImage = ""
        · exact Or.inr (fun hc => hcon ⟨hc, hk⟩)
        · exact Or.inl hk
      exact kernelMappingStep_missing compile c idx km (Or.inl ⟨hl, hr⟩) hok himg.1 himg.2
    · exact Or.inr (Or.inr (Or.inl ⟨e, he,
        kernelMappingStep_invalid compile c idx km e (Or.inl ⟨hl, hr⟩) he⟩))
  · rcases except_unit_cases (compile km.Regexp) with hok | ⟨e, he⟩
    · refine Or.inr (Or.inr (Or.inr ?_))
      have himg : c.ContainerImage = "" ∧ km.ContainerImage = "" := by
        by_contra hcon
        apply hbad
        refine ⟨Or.inr ⟨hl, hr⟩, hok, ?_⟩
        by_cases hk : km.ContainerImage = ""
        · exact Or.inr (fun hc => hcon ⟨hc, hk⟩)
        · exact Or.inl hk
      exact kernelMappingStep_missing compile c idx km (Or.inr ⟨hl, hr⟩) hok himg.1 himg.2
    · exact Or.inr (Or.inr (Or.inl ⟨e, he,
        kernelMappingStep_invalid compile c idx km e (Or.inr ⟨hl, hr⟩) he⟩))
  · exact Or.inl (kernelMappingStep_both compile c idx km hr hl)

/-- C6: when some mapping violates a rule, `validateKernelMapping` returns the
error produced for the smallest violating index `i`, and every resource with
the same container image and the same mappings up to and including `i` gets
the same error, whatever follows; with invalid mappings at index 0 and index 1
the error is one of the four messages for index 0. -/
theorem validateKernelMapping_fail_fast (compile : Compiler) (m : Module)
    (hsome : ∃ km ∈ m.Spec.ModuleLoader.Container.KernelMappings,
      ¬ MappingOk compile m.Spec.ModuleLoader.Container km) :
    (∃ (i : Nat) (km : KernelMapping) (msg : String),
        m.Spec.ModuleLoader.Container.KernelMappings[i]? = some km ∧
        (∀ j : Nat, j < i → ∀ kj, m.Spec.ModuleLoader.Container.KernelMappings[j]? = some kj →
          MappingOk compile m.Spec.ModuleLoader.Container kj) ∧
        kernelMappingStep compile m.Spec.ModuleLoader.Container i km = some msg ∧
        m.validateKernelMapping compile = .error msg ∧
        ∀ m' : Module,
          m'.Spec.ModuleLoader.Container.ContainerImage
              = m.Spec.ModuleLoader.Container.ContainerImage →
          m'.Spec.ModuleLoader.Container.KernelMappings.take (i + 1)
              = m.Spec.ModuleLoader.Container.KernelMappings.take (i + 1) →
          m'.validateKernelMapping compile = .error msg) ∧
      (∀ (km₀ km₁ : KernelMapping) (rest : List KernelMapping),
        m.Spec.ModuleLoader.Container.KernelMappings = km₀ :: km₁ :: rest →
        ¬ MappingOk compile m.Spec.ModuleLoader.Container km₀ →
        ¬ MappingOk compile m.Spec.ModuleLoader.Container km₁ →
        m.validateKernelMapping compile = .error
            "regexp and literal are mutually exclusive properties at kernelMappings[0]" ∨
          m.validateKernelMapping compile = .error
            "regexp or literal must be set at kernelMappings[0]" ∨
          (∃ e, compile km₀.Regexp = .error e ∧
            m.validateKernelMapping compile = .error ("invalid regexp at index 0: " ++ e)) ∨
          m.validateKernelMapping compile = .error
            "missing spec.moduleLoader.container.kernelMappings[0].containerImage") := by
  constructor
  · obtain ⟨i, km, hi, hbad, hbefore⟩ := exists_first_violation compile m.container m.mappings hsome
    obtain ⟨msg, hstep⟩ := (kernelMappingStep_isSome_iff compile m.container i km).mpr hbad
    refine ⟨i, km, msg, hi, hbefore, hstep,
      validateKernelMapping_first compile m i km msg hi hbefore hstep, ?_⟩
    intro m' himg htake
    have hsame : ∀ j : Nat, j ≤ i → m'.mappings[j]? = m.mappings[j]? := by
      intro j hj
      have hlt : j < i + 1 := Nat.lt_succ_of_le hj
      have h₁ := @List.getElem?_take_of_lt _ m'.mappings (i + 1) j hlt
      have h₂ := @List.getElem?_take_of_lt _ m.mappings (i + 1) j hlt
      rw [← h₁, ← h₂]
      exact congrArg (fun l : List KernelMapping => l[j]?) htake
    apply validateKernelMapping_first compile m' i km msg
    · rw [hsame i (Nat.le_refl i)]
      exact hi
    · intro j hj kj hkj
      rw [hsame j (Nat.le_of_lt hj)] at hkj
      exact (mappingOk_congr compile m.container m'.container himg kj).mpr (hbefore j hj kj hkj)
    · rw [kernelMappingStep_congr compile m.container m'.container himg]
      exact hstep
  · intro km₀ km₁ rest hlist hbad₀ _
    have hi : m.mappings[0]? = some km₀ := by
      show m.Spec.ModuleLoader.Container.KernelMappings[0]? = some km₀
      rw [hlist]
      rfl
    have hfirst := fun msg => validateKernelMapping_first compile m 0 km₀ msg hi
      (fun (j : Nat) (hj : j < 0) => absurd hj (Nat.not_lt_zero j))
    rcases kernelMappingStep_of_not_ok compile m.container 0 km₀ hbad₀ with h | h | ⟨e, he, h⟩ | h
    · exact Or.inl (hfirst _ h)
    · exact Or.inr (Or.inl (hfirst _ h))
    · exact Or.inr (Or.inr (Or.inl ⟨e, he, hfirst _ h⟩))
    · exact Or.inr (Or.inr (Or.inr (hfirst _ h)))

/-- C6 at a resource with two invalid mappings: the error is the one of
index 0. -/
theorem validateKernelMapping_fail_fast_witness :
    (∃ km ∈ twoInvalidModule.Spec.ModuleLoader.Container.KernelMappings,
        ¬ MappingOk exampleCompile twoInvalidModule.Spec.ModuleLoader.Container km) ∧
      (twoInvalidModule.validateKernelMapping exampleCompile = .error
            "regexp and literal are mutually exclusive properties at kernelMappings[0]" ∨
          twoInvalidModule.validateKernelMapping exampleCompile = .error
            "regexp or literal must be set at kernelMappings[0]" ∨
          (∃ e, exampleCompile "" = .error e ∧
            twoInvalidModule.validateKernelMapping exampleCompile
              = .error ("invalid regexp at index 0: " ++ e)) ∨
          twoInvalidModule.validateKernelMapping exampleCompile = .error
            "missing spec.moduleLoader.container.kernelMappings[0].containerImage") ∧
      twoInvalidModule.validateKernelMapping exampleCompile = .error
        "missing spec.moduleLoader.container.kernelMappings[0].containerImage" :=
  ⟨⟨⟨"", "5.14.0", ""⟩, by decide, by decide⟩,
    (validateKernelMapping_fail_fast exampleCompile twoInvalidModule
      ⟨⟨"", "5.14.0", ""⟩, by decide, by decide⟩).2 ⟨"", "5.14.0", ""⟩ ⟨"img", "", ""⟩ [] rfl
      (by decide) (by decide),
    rfl⟩

/-- C7: when every mapping has only `literal` set (`regexp` empty) and an image
at mapping or container level, `validateKernelMapping` accepts, provided the
empty pattern compiles; for a non-empty list of such mappings that proviso is
also necessary. -/
theorem validateKernelMapping_literal_only (compile : Compiler) (m : Module)
    (hall : ∀ km ∈ m.Spec.ModuleLoader.Container.KernelMappings,
      km.Literal ≠ "" ∧ km.Regexp = "" ∧
        (km.ContainerImage ≠ "" ∨ m.Spec.ModuleLoader.Container.ContainerImage ≠ "")) :
    (compile "" = .ok () → m.validateKernelMapping compile = .ok ()) ∧
      (m.Spec.ModuleLoader.Container.KernelMappings ≠ [] →
        m.validateKernelMapping compile = .ok () → compile "" = .ok ()) := by
  unfold Module.validateKernelMapping
  simp only [rangeKernelMappings_ok_iff]
  constructor
  · intro hempty km hmem
    obtain ⟨hl, hr, himg⟩ := hall km hmem
    refine ⟨Or.inl ⟨hl, hr⟩, ?_, himg⟩
    rw [hr]
    exact hempty
  · intro hne hok
    obtain ⟨km, hmem⟩ := List.exists_mem_of_ne_nil _ hne
    have hcomp := (hok km hmem).2.1
    rw [(hall km hmem).2.1] at hcomp
    exact hcomp

/-- C7 at a resource with two literal-only mappings. -/
theorem validateKernelMapping_literal_only_witness :
    (∀ km ∈ literalOnlyModule.Spec.ModuleLoader.Container.KernelMappings,
        km.Literal ≠ "" ∧ km.Regexp = "" ∧
          (km.ContainerImage ≠ "" ∨
            literalOnlyModule.Spec.ModuleLoader.Container.ContainerImage ≠ "")) ∧
      exampleCompile "" = .ok () ∧
      literalOnlyModule.validateKernelMapping exampleCompile = .ok () :=
  ⟨by decide, rfl,
    (validateKernelMapping_literal_only exampleCompile literalOnlyModule (by decide)).1 rfl⟩

/-- C8: when the first rule-violating mapping is at index `i`, has exactly one
selector set and a `regexp` that compiles, and neither it nor the container has
a `containerImage`, `ValidateCreate` rejects with the missing-image message for
index `i`; in particular the single mapping `{literal: "5.14.0", image: ""}`
with container image `""` is rejected at index 0 (its empty `regexp` has to
compile for the check to be reached). -/
theorem validateCreate_missing_image (compile : Compiler) :
    (∀ (m : Module) (i : Nat) (km : KernelMapping),
        m.Spec.ModuleLoader.Container.KernelMappings[i]? = some km →
        (∀ j : Nat, j < i → ∀ kj, m.Spec.ModuleLoader.Container.KernelMappings[j]? = some kj →
          MappingOk compile m.Spec.ModuleLoader.Container kj) →
        ((km.Literal ≠ "" ∧ km.Regexp = "") ∨ (km.Literal = "" ∧ km.Regexp ≠ "")) →
        compile km.Regexp = .ok () →
        km.ContainerImage = "" →
        m.Spec.ModuleLoader.Container.ContainerImage = "" →
        m.ValidateCreate compile = .error
          ("failed to validate kernel mappings: missing spec.moduleLoader.container.kernelMappings["
            ++ toString i ++ "].containerImage")) ∧
      (compile "" = .ok () →
        ∀ (name ns : String) (modprobe : ModprobeSpec),
          Module.ValidateCreate compile
              { Name := name, Namespace := ns,
                Spec := { ModuleLoader := { Container :=
                  { Modprobe := modprobe, ContainerImage := "",
                    KernelMappings := [⟨"", "5.14.0", ""⟩] } } } }
            = .error
              "failed to validate kernel mappings: missing spec.moduleLoader.container.kernelMappings[0].containerImage") := by
  have hgen : ∀ (m : Module) (i : Nat) (km : KernelMapping),
      m.Spec.ModuleLoader.Container.KernelMappings[i]? = some km →
      (∀ j : Nat, j < i → ∀ kj, m.Spec.ModuleLoader.Container.KernelMappings[j]? = some kj →
        MappingOk compile m.Spec.ModuleLoader.Container kj) →
      ((km.Literal ≠ "" ∧ km.Regexp = "") ∨ (km.Literal = "" ∧ km.Regexp ≠ "")) →
      compile km.Regexp = .ok () →
      km.ContainerImage = "" →
      m.Spec.ModuleLoader.Container.ContainerImage = "" →
      m.ValidateCreate compile = .error
        ("failed to validate kernel mappings: missing spec.moduleLoader.container.kernelMappings["
          ++ toString i ++ "].containerImage") := by
    intro m i km hi hbefore hone hcomp hk hc
    rw [validateCreate_first compile m i km _ hi hbefore
      (kernelMappingStep_missing compile _ i km hone hcomp hc hk), wrap_index_message]
    rfl
  refine ⟨hgen, ?_⟩
  intro hempty name ns modprobe
  exact hgen _ 0 ⟨"", "5.14.0", ""⟩ rfl
    (fun (j : Nat) (hj : j < 0) => absurd hj (Nat.not_lt_zero j))
    (Or.inl ⟨by decide, rfl⟩) hempty rfl rfl

/-- C8 at the single mapping `{literal: "5.14.0", image: ""}` with container
image `""`. -/
theorem validateCreate_missing_image_witness :
    exampleCompile "" = .ok () ∧
      missingImageModule.ValidateCreate exampleCompile = .error
        "failed to validate kernel mappings: missing spec.moduleLoader.container.kernelMappings[0].containerImage" :=
  ⟨rfl, (validateCreate_missing_image exampleCompile).2 rfl "" "" namedModprobe⟩

/-! ## Rule group B -/

/-- C9: with a non-empty `moduleName`, `validateModprobe` accepts if and only
if `rawArgs` is absent or present with both sequences empty; otherwise it
rejects with exactly "rawArgs cannot be set when moduleName is set".  In
particular `rawArgs` absent is accepted and a non-empty raw `load` is
rejected. -/
theorem validateModprobe_named (m : Module)
    (hname : m.Spec.ModuleLoader.Container.Modprobe.ModuleName ≠ "") :
    (m.validateModprobe = .ok () ↔
        (m.Spec.ModuleLoader.Container.Modprobe.RawArgs = none ∨
          ∃ rawArgs, m.Spec.ModuleLoader.Container.Modprobe.RawArgs = some rawArgs ∧
            rawArgs.Load = [] ∧ rawArgs.Unload = [])) ∧
      (¬ (m.Spec.ModuleLoader.Container.Modprobe.RawArgs = none ∨
          ∃ rawArgs, m.Spec.ModuleLoader.Container.Modprobe.RawArgs = some rawArgs ∧
            rawArgs.Load = [] ∧ rawArgs.Unload = []) →
        m.validateModprobe = .error "rawArgs cannot be set when moduleName is set") ∧
      (m.Spec.ModuleLoader.Container.Modprobe.RawArgs = none → m.validateModprobe = .ok ()) ∧
      (∀ rawArgs, m.Spec.ModuleLoader.Container.Modprobe.RawArgs = some rawArgs →
        rawArgs.Load ≠ [] →
        m.validateModprobe = .error "rawArgs cannot be set when moduleName is set") := by
  unfold Module.validateModprobe
  cases hra : m.Spec.ModuleLoader.Container.Modprobe.RawArgs with
  | none => simp [hname, hra]
  | some ra =>
    by_cases hl : ra.Load = [] <;> by_cases hu : ra.Unload = [] <;>
      simp [hname, hra, hl, hu, List.length_pos]

/-- C9 at `moduleName: "foo"` without raw arguments (accepted) and with a raw
load sequence (rejected). -/
theorem validateModprobe_named_witness :
    namedModule.Spec.ModuleLoader.Container.Modprobe.ModuleName ≠ "" ∧
      namedModule.validateModprobe = .ok () ∧
      conflictingModule.Spec.ModuleLoader.Container.Modprobe.ModuleName ≠ "" ∧
      conflictingModule.validateModprobe
        = .error "rawArgs cannot be set when moduleName is set" :=
  ⟨by decide, (validateModprobe_named namedModule (by decide)).2.2.1 rfl,
    by decide,
    (validateModprobe_named conflictingModule (by decide)).2.2.2
      { Load := ["insmod a"], Unload := [] } rfl (by decide)⟩

/-- C10: with an empty `moduleName`, `validateModprobe` accepts if and only if
`rawArgs` is present and both its `load` and `unload` sequences are non-empty;
otherwise it rejects with exactly "load and unload rawArgs must be set when
moduleName is unset". -/
theorem validateModprobe_unnamed (m : Module)
    (hname : m.Spec.ModuleLoader.Container.Modprobe.ModuleName = "") :
    (m.validateModprobe = .ok () ↔
        ∃ rawArgs, m.Spec.ModuleLoader.Container.Modprobe.RawArgs = some rawArgs ∧
          rawArgs.Load ≠ [] ∧ rawArgs.Unload ≠ []) ∧
      (¬ (∃ rawArgs, m.Spec.ModuleLoader.Container.Modprobe.RawArgs = some rawArgs ∧
          rawArgs.Load ≠ [] ∧ rawArgs.Unload ≠ []) →
        m.validateModprobe
          = .error "load and unload rawArgs must be set when moduleName is unset") := by
  unfold Module.validateModprobe
  cases hra : m.Spec.ModuleLoader.Container.Modprobe.RawArgs with
  | none => simp [hname, hra]
  | some ra =>
    by_cases hl : ra.Load = [] <;> by_cases hu : ra.Unload = [] <;>
      simp [hname, hra, hl, hu, List.length_pos]

/-- C10 at raw arguments with both sequences (accepted) and with `load` only
(rejected). -/
theorem validateModprobe_unnamed_witness :
    rawModule.Spec.ModuleLoader.Container.Modprobe.ModuleName = "" ∧
      rawModule.validateModprobe = .ok () ∧
      incompleteRawModule.Spec.ModuleLoader.Container.Modprobe.ModuleName = "" ∧
      incompleteRawModule.validateModprobe
        = .error "load and unload rawArgs must be set when moduleName is unset" :=
  ⟨rfl,
    (validateModprobe_unnamed rawModule rfl).1.mpr
      ⟨{ Load := ["insmod a"], Unload := ["rmmod a"] }, rfl, by decide, by decide⟩,
    rfl,
    (validateModprobe_unnamed incompleteRawModule rfl).2
      (by
        rintro ⟨ra, hra, _, hu⟩
        have hra' : ra = { Load := ["insmod a"], Unload := [] } := (Option.some.inj hra).symm
        subst hra'
        exact hu rfl)⟩

/-! ## The two rule groups together -/

/-- The loop reads the container only through its default image. -/
theorem rangeKernelMappings_congr (compile : Compiler) (c c' : ModuleLoaderContainerSpec)
    (h : c'.ContainerImage = c.ContainerImage) (kms : List KernelMapping) (idx : Nat) :
    rangeKernelMappings compile c' idx kms = rangeKernelMappings compile c idx kms := by
  induction kms generalizing idx with
  | nil => rfl
  | cons km rest ih =>
    unfold rangeKernelMappings
    rw [kernelMappingStep_congr compile c c' h, ih]

/-- Rule group A does not read the loading-argument block. -/
theorem validateKernelMapping_withModprobe (compile : Compiler) (m : Module)
    (mp : ModprobeSpec) :
    (m.withModprobe mp).validateKernelMapping compile = m.validateKernelMapping compile := by
  unfold Module.validateKernelMapping
  exact rangeKernelMappings_congr compile m.Spec.ModuleLoader.Container
    (m.withModprobe mp).Spec.ModuleLoader.Container rfl
    m.Spec.ModuleLoader.Container.KernelMappings 0

/-- C11 as stated fails: the resource has `moduleName: "foo"` and a
raw-arguments structure that is present (with empty `load` and `unload`), and
`ValidateCreate` accepts it. -/
theorem accepted_named_with_present_rawArgs :
    emptyRawNamedModule.ValidateCreate exampleCompile = .ok () ∧
      emptyRawNamedModule.Spec.ModuleLoader.Container.Modprobe.ModuleName ≠ "" ∧
      emptyRawNamedModule.Spec.ModuleLoader.Container.Modprobe.RawArgs
        = some { Load := [], Unload := [] } ∧
      emptyRawNamedModule.Spec.ModuleLoader.Container.Modprobe.RawArgs ≠ none :=
  ⟨rfl, by decide, rfl, by decide⟩

/-- C11, amended: in a resource that `ValidateCreate` accepts, if `moduleName`
is set then neither raw sequence is non-empty (the raw-arguments structure is
absent, or present with `load` and `unload` both empty), and if `moduleName`
is unset then `load` and `unload` are both non-empty. -/
theorem validateCreate_accepted_mode (compile : Compiler) (m : Module)
    (hacc : m.ValidateCreate compile = .ok ()) :
    (m.Spec.ModuleLoader.Container.Modprobe.ModuleName ≠ "" →
        m.Spec.ModuleLoader.Container.Modprobe.RawArgs = none ∨
          ∃ rawArgs, m.Spec.ModuleLoader.Container.Modprobe.RawArgs = some rawArgs ∧
            rawArgs.Load = [] ∧ rawArgs.Unload = []) ∧
      (m.Spec.ModuleLoader.Container.Modprobe.ModuleName = "" →
        ∃ rawArgs, m.Spec.ModuleLoader.Container.Modprobe.RawArgs = some rawArgs ∧
          rawArgs.Load ≠ [] ∧ rawArgs.Unload ≠ []) := by
  have hmod := (validateModprobe_ok_iff m).mp ((validateCreate_ok_iff compile m).mp hacc).2
  unfold ModprobeSpec.rawLoadSet ModprobeSpec.rawUnloadSet at hmod
  simp only [Module.container] at hmod
  constructor
  · intro hname
    rcases hmod with ⟨_, hl, hu⟩ | ⟨hn, _⟩
    · cases hra : m.Spec.ModuleLoader.Container.Modprobe.RawArgs with
      | none => exact Or.inl rfl
      | some ra =>
        refine Or.inr ⟨ra, rfl, ?_, ?_⟩
        · by_contra hne
          exact hl ⟨ra, hra, hne⟩
        · by_contra hne
          exact hu ⟨ra, hra, hne⟩
    · exact absurd hn hname
  · intro hname
    rcases hmod with ⟨hn, _⟩ | ⟨_, ⟨ra, hra, hl⟩, ⟨ra', hra', hu⟩⟩
    · exact absurd hname hn
    · refine ⟨ra, hra, hl, ?_⟩
      rw [hra] at hra'
      cases hra'
      exact hu

/-- C11, amended, at an accepted resource in raw-argument mode. -/
theorem validateCreate_accepted_mode_witness :
    rawModule.ValidateCreate exampleCompile = .ok () ∧
      rawModule.Spec.ModuleLoader.Container.Modprobe.ModuleName = "" ∧
      ∃ rawArgs, rawModule.Spec.ModuleLoader.Container.Modprobe.RawArgs = some rawArgs ∧
        rawArgs.Load ≠ [] ∧ rawArgs.Unload ≠ [] :=
  ⟨rfl, rfl, (validateCreate_accepted_mode exampleCompile rawModule rfl).2 rfl⟩

/-- C12: if `validateKernelMapping` rejects with message `e`, `ValidateCreate`
rejects with "failed to validate kernel mappings: " followed by `e`, whatever
the loading-argument block is replaced with; if `validateKernelMapping`
accepts, `ValidateCreate` returns the result of `validateModprobe` as it is. -/
theorem validateCreate_precedence (compile : Compiler) (m : Module) :
    (∀ e, m.validateKernelMapping compile = .error e →
        m.ValidateCreate compile = .error ("failed to validate kernel mappings: " ++ e) ∧
        ∀ mp : ModprobeSpec, (m.withModprobe mp).ValidateCreate compile
          = .error ("failed to validate kernel mappings: " ++ e)) ∧
      (m.validateKernelMapping compile = .ok () →
        m.ValidateCreate compile = m.validateModprobe) := by
  constructor
  · intro e he
    refine ⟨validateCreate_of_mapping_error compile m e he, ?_⟩
    intro mp
    apply validateCreate_of_mapping_error
    rw [validateKernelMapping_withModprobe]
    exact he
  · intro hok
    unfold Module.ValidateCreate
    rw [hok]

/-- C12 at a resource whose mapping lacks an image: the error of rule group A
is surfaced although the loading-argument block is valid, and with an invalid
block as well. -/
theorem validateCreate_precedence_witness :
    missingImageModule.validateKernelMapping exampleCompile = .error
        "missing spec.moduleLoader.container.kernelMappings[0].containerImage" ∧
      missingImageModule.ValidateCreate exampleCompile = .error
        ("failed to validate kernel mappings: "
          ++ "missing spec.moduleLoader.container.kernelMappings[0].containerImage") ∧
      (missingImageModule.withModprobe { ModuleName := "", RawArgs := none }).ValidateCreate
          exampleCompile = .error
        ("failed to validate kernel mappings: "
          ++ "missing spec.moduleLoader.container.kernelMappings[0].containerImage") :=
  ⟨rfl,
    ((validateCreate_precedence exampleCompile missingImageModule).1 _ rfl).1,
    ((validateCreate_precedence exampleCompile missingImageModule).1 _ rfl).2
      { ModuleName := "", RawArgs := none }⟩

/-- Rule group A on a replaced list accepts exactly when every mapping of the
new list violates no rule. -/
theorem validateKernelMapping_withMappings_ok_iff (compile : Compiler) (m : Module)
    (kms : List KernelMapping) :
    (m.withMappings kms).validateKernelMapping compile = .ok () ↔
      ∀ km ∈ kms, MappingOk compile m.container km := by
  unfold Module.validateKernelMapping
  rw [rangeKernelMappings_ok_iff]
  constructor
  · intro h km hmem
    exact (mappingOk_congr compile m.container _ rfl km).mp (h km hmem)
  · intro h km hmem
    exact (mappingOk_congr compile m.container _ rfl km).mpr (h km hmem)

/-- C13: the verdict of `ValidateCreate` does not depend on the order of the
kernel mappings: the resource with a permutation of the list is accepted if
and only if the original is, and rejected if and only if the original is. -/
theorem validateCreate_perm (compile : Compiler) (m : Module) (kms : List KernelMapping)
    (hperm : kms.Perm m.Spec.ModuleLoader.Container.KernelMappings) :
    ((m.withMappings kms).ValidateCreate compile = .ok () ↔
        m.ValidateCreate compile = .ok ()) ∧
      ((∃ msg, (m.withMappings kms).ValidateCreate compile = .error msg) ↔
        ∃ msg, m.ValidateCreate compile = .error msg) := by
  have hacc : (m.withMappings kms).ValidateCreate compile = .ok () ↔
      m.ValidateCreate compile = .ok () := by
    rw [validateCreate_ok_iff, validateCreate_ok_iff, validateKernelMapping_withMappings_ok_iff]
    have hmod : (m.withMappings kms).validateModprobe = m.validateModprobe := rfl
    rw [hmod]
    unfold Module.validateKernelMapping
    rw [rangeKernelMappings_ok_iff]
    constructor
    · rintro ⟨h, hb⟩
      exact ⟨fun km hmem => h km (hperm.mem_iff.mpr hmem), hb⟩
    · rintro ⟨h, hb⟩
      exact ⟨fun km hmem => h km (hperm.mem_iff.mp hmem), hb⟩
  refine ⟨hacc, ?_⟩
  constructor
  · rintro ⟨msg, hmsg⟩
    rcases except_unit_cases (m.ValidateCreate compile) with h | h
    · rw [hacc.mpr h] at hmsg
      cases hmsg
    · exact h
  · rintro ⟨msg, hmsg⟩
    rcases except_unit_cases ((m.withMappings kms).ValidateCreate compile) with h | h
    · rw [hacc.mp h] at hmsg
      cases hmsg
    · exact h

/-- C13 at a valid mapping followed by an invalid one, and the two swapped:
both resources are rejected, with messages that name different indices. -/
theorem validateCreate_perm_witness :
    [(⟨"img", "", ""⟩ : KernelMapping), ⟨"img", "5.14.0", ""⟩].Perm
        validThenInvalidModule.Spec.ModuleLoader.Container.KernelMappings ∧
      ((∃ msg, (validThenInvalidModule.withMappings
            [⟨"img", "", ""⟩, ⟨"img", "5.14.0", ""⟩]).ValidateCreate exampleCompile
          = .error msg) ↔
        ∃ msg, validThenInvalidModule.ValidateCreate exampleCompile = .error msg) ∧
      validThenInvalidModule.ValidateCreate exampleCompile = .error
        "failed to validate kernel mappings: regexp or literal must be set at kernelMappings[1]" ∧
      (validThenInvalidModule.withMappings
          [⟨"img", "", ""⟩, ⟨"img", "5.14.0", ""⟩]).ValidateCreate exampleCompile = .error
        "failed to validate kernel mappings: regexp or literal must be set at kernelMappings[0]" :=
  ⟨List.Perm.swap _ _ _,
    (validateCreate_perm exampleCompile validThenInvalidModule
      [⟨"img", "", ""⟩, ⟨"img", "5.14.0", ""⟩] (List.Perm.swap _ _ _)).2,
    rfl, rfl⟩

/-- An error of rule group A is the error of the loop body at the first
violating index. -/
theorem validateKernelMapping_error_inv (compile : Compiler) (m : Module) (e : String)
    (he : m.validateKernelMapping compile = .error e) :
    ∃ (i : Nat) (km : KernelMapping), m.mappings[i]? = some km ∧
      (∀ j : Nat, j < i → ∀ kj, m.mappings[j]? = some kj → MappingOk compile m.container kj) ∧
      ¬ MappingOk compile m.container km ∧
      kernelMappingStep compile m.container i km = some e := by
  have hsome : ∃ km ∈ m.mappings, ¬ MappingOk compile m.container km := by
    by_contra hcon
    have hall : ∀ km ∈ m.mappings, MappingOk compile m.container km := by
      intro km hmem
      by_contra hbad
      exact hcon ⟨km, hmem, hbad⟩
    have hok : m.validateKernelMapping compile = .ok () := by
      unfold Module.validateKernelMapping
      exact (rangeKernelMappings_ok_iff compile _ _ 0).mpr hall
    rw [hok] at he
    cases he
  obtain ⟨i, km, hi, hbad, hbefore⟩ := exists_first_violation compile m.container m.mappings hsome
  obtain ⟨msg, hstep⟩ := (kernelMappingStep_isSome_iff compile m.container i km).mpr hbad
  have hres := validateKernelMapping_first compile m i km msg hi hbefore hstep
  rw [he] at hres
  cases hres
  exact ⟨i, km, hi, hbefore, hbad, hstep⟩

/-- Rule group B rejects with one of its two messages. -/
theorem validateModprobe_error_inv (m : Module) (msg : String)
    (h : m.validateModprobe = .error msg) :
    msg = "rawArgs cannot be set when moduleName is set" ∨
      msg = "load and unload rawArgs must be set when moduleName is unset" := by
  unfold Module.validateModprobe at h
  simp only [] at h
  split_ifs at h
  · cases h
    exact Or.inl rfl
  · cases h
    exact Or.inr rfl

theorem wrap_invalid_message (a b e : String) (i : Nat) :
    "failed to validate kernel mappings: " ++ (a ++ toString i ++ b ++ e) =
      "failed to validate kernel mappings: " ++ a ++ toString i ++ b ++ e := by
  simp [String.append_assoc]

/-- C14: every rejection of `ValidateCreate` is in the taxonomy: the message is
"failed to validate kernel mappings: " followed by one of the four
kernel-mapping messages for an index `i` below the length of the mapping list
(the invalid-regexp one carrying the compiler's error text for the pattern at
`i`), or it is one of the two loading-argument messages. -/
theorem validateCreate_error_taxonomy (compile : Compiler) (m : Module) (msg : String)
    (hrej : m.ValidateCreate compile = .error msg) :
    (∃ i : Nat, i < m.Spec.ModuleLoader.Container.KernelMappings.length ∧
        (msg = "failed to validate kernel mappings: regexp and literal are mutually exclusive properties at kernelMappings["
            ++ toString i ++ "]" ∨
          msg = "failed to validate kernel mappings: regexp or literal must be set at kernelMappings["
            ++ toString i ++ "]" ∨
          (∃ (km : KernelMapping) (e : String),
            m.Spec.ModuleLoader.Container.KernelMappings[i]? = some km ∧
            compile km.Regexp = .error e ∧
            msg = "failed to validate kernel mappings: invalid regexp at index "
              ++ toString i ++ ": " ++ e) ∨
          msg = "failed to validate kernel mappings: missing spec.moduleLoader.container.kernelMappings["
            ++ toString i ++ "].containerImage")) ∨
      msg = "rawArgs cannot be set when moduleName is set" ∨
      msg = "load and unload rawArgs must be set when moduleName is unset" := by
  rcases except_unit_cases (m.validateKernelMapping compile) with hok | ⟨e, he⟩
  · right
    have hcr : m.ValidateCreate compile = m.validateModprobe := by
      unfold Module.ValidateCreate
      rw [hok]
    rw [hcr] at hrej
    exact validateModprobe_error_inv m msg hrej
  · left
    have hcr := validateCreate_of_mapping_error compile m e he
    rw [hrej] at hcr
    have hmsg : msg = "failed to validate kernel mappings: " ++ e := Except.error.inj hcr
    obtain ⟨i, km, hi, _, hbad, hstep⟩ := validateKernelMapping_error_inv compile m e he
    have hlt : i < m.mappings.length := (List.getElem?_eq_some.mp hi).1
    refine ⟨i, hlt, ?_⟩
    rcases kernelMappingStep_of_not_ok compile m.container i km hbad with h | h | ⟨e', he', h⟩ | h
    · rw [hstep] at h
      rw [hmsg, Option.some.inj h, wrap_index_message]
      exact Or.inl rfl
    · rw [hstep] at h
      rw [hmsg, Option.some.inj h, wrap_index_message]
      exact Or.inr (Or.inl rfl)
    · rw [hstep] at h
      rw [hmsg, Option.some.inj h, wrap_invalid_message]
      exact Or.inr (Or.inr (Or.inl ⟨km, e', hi, he', rfl⟩))
    · rw [hstep] at h
      rw [hmsg, Option.some.inj h, wrap_index_message]
      exact Or.inr (Or.inr (Or.inr rfl))

/-- C14 at the resource with the single mapping `{regexp: "("}`: its rejection
is the invalid-regexp entry of the taxonomy, for index 0. -/
theorem validateCreate_error_taxonomy_witness :
    badRegexpModule.ValidateCreate exampleCompile = .error
        "failed to validate kernel mappings: invalid regexp at index 0: error parsing regexp: missing closing ): `(`" ∧
      ((∃ i : Nat, i < badRegexpModule.Spec.ModuleLoader.Container.KernelMappings.length ∧
          ("failed to validate kernel mappings: invalid regexp at index 0: error parsing regexp: missing closing ): `(`"
              = "failed to validate kernel mappings: regexp and literal are mutually exclusive properties at kernelMappings["
                ++ toString i ++ "]" ∨
            "failed to validate kernel mappings: invalid regexp at index 0: error parsing regexp: missing closing ): `(`"
              = "failed to validate kernel mappings: regexp or literal must be set at kernelMappings["
                ++ toString i ++ "]" ∨
            (∃ (km : KernelMapping) (e : String),
              badRegexpModule.Spec.ModuleLoader.Container.KernelMappings[i]? = some km ∧
              exampleCompile km.Regexp = .error e ∧
              "failed to validate kernel mappings: invalid regexp at index 0: error parsing regexp: missing closing ): `(`"
                = "failed to validate kernel mappings: invalid regexp at index "
                  ++ toString i ++ ": " ++ e) ∨
            "failed to validate kernel mappings: invalid regexp at index 0: error parsing regexp: missing closing ): `(`"
              = "failed to validate kernel mappings: missing spec.moduleLoader.container.kernelMappings["
                ++ toString i ++ "].containerImage")) ∨
        "failed to validate kernel mappings: invalid regexp at index 0: error parsing regexp: missing closing ): `(`"
          = "rawArgs cannot be set when moduleName is set" ∨
        "failed to validate kernel mappings: invalid regexp at index 0: error parsing regexp: missing closing ): `(`"
          = "load and unload rawArgs must be set when moduleName is unset") :=
  ⟨rfl, validateCreate_error_taxonomy exampleCompile badRegexpModule _ rfl⟩

/-! ## The calls as runs -/

/-- The guard `modprobe.RawArgs != nil` keeps the run of `validateModprobe`
from dereferencing a nil pointer: the run always has a result, the one of the
function. -/
theorem validateModprobeRun_eq (m : Module) :
    m.validateModprobeRun = some m.validateModprobe := by
  unfold Module.validateModprobeRun Module.validateModprobe
  cases hra : m.Spec.ModuleLoader.Container.Modprobe.RawArgs with
  | none =>
    by_cases hn : m.Spec.ModuleLoader.Container.Modprobe.ModuleName = "" <;>
      simp [goAnd, hra, hn]
  | some ra =>
    by_cases hn : m.Spec.ModuleLoader.Container.Modprobe.ModuleName = "" <;>
      by_cases hl : ra.Load = [] <;> by_cases hu : ra.Unload = [] <;>
      simp [goAnd, hra, hn, hl, hu, List.length_pos]

/-- A run of `ValidateCreate` returns the verdict of the function and adds one
line to the log. -/
theorem validateCreateRun_eq (compile : Compiler) (w : World) :
    ValidateCreateRun compile w =
      some (w.resource.ValidateCreate compile, logInfo "Validating Module creation" w) := by
  unfold ValidateCreateRun Module.ValidateCreate
  have hres : (logInfo "Validating Module creation" w).resource = w.resource := rfl
  simp only [hres]
  rcases except_unit_cases (w.resource.validateKernelMapping compile) with h | ⟨e, h⟩
  · simp [h, validateModprobeRun_eq]
  · simp [h]

/-- A run of `ValidateUpdate` returns the verdict of the function and adds one
line to the log. -/
theorem validateUpdateRun_eq (compile : Compiler) (w : World) {Obj : Type} (old : Obj) :
    ValidateUpdateRun compile w old =
      some (w.resource.ValidateUpdate compile old, logInfo "Validating Module update" w) := by
  unfold ValidateUpdateRun Module.ValidateUpdate
  have hres : (logInfo "Validating Module update" w).resource = w.resource := rfl
  simp only [hres]
  rcases except_unit_cases (w.resource.validateKernelMapping compile) with h | ⟨e, h⟩
  · simp [h, validateModprobeRun_eq]
  · simp [h]

/-- C15: for every resource, the runs of `ValidateCreate`, `ValidateUpdate`
and `ValidateDelete` return a verdict (no run ends in a nil dereference), the
run of `validateModprobe` never dereferences a nil `rawArgs`, with an empty
`moduleName` and `rawArgs` absent the result after rule group A passes is
"load and unload rawArgs must be set when moduleName is unset", and this is
the result for the zero-valued resource. -/
theorem validate_total (compile : Compiler) (m : Module) (log : List LogLine)
    {Obj : Type} (old : Obj) :
    (∃ (v : Except String Unit) (w : World),
        ValidateCreateRun compile ⟨m, log⟩ = some (v, w) ∧ v = m.ValidateCreate compile) ∧
      (∃ (v : Except String Unit) (w : World),
        ValidateUpdateRun compile ⟨m, log⟩ old = some (v, w) ∧
          v = m.ValidateUpdate compile old) ∧
      (∃ (v : Except String Unit) (w : World),
        ValidateDeleteRun ⟨m, log⟩ = some (v, w) ∧ v = m.ValidateDelete) ∧
      m.validateModprobeRun = some m.validateModprobe ∧
      (m.Spec.ModuleLoader.Container.Modprobe.ModuleName = "" →
        m.Spec.ModuleLoader.Container.Modprobe.RawArgs = none →
        m.validateKernelMapping compile = .ok () →
        m.ValidateCreate compile
            = .error "load and unload rawArgs must be set when moduleName is unset" ∧
          m.ValidateUpdate compile old
            = .error "load and unload rawArgs must be set when moduleName is unset") ∧
      zeroModule.ValidateCreate compile
        = .error "load and unload rawArgs must be set when moduleName is unset" ∧
      zeroModule.ValidateUpdate compile old
        = .error "load and unload rawArgs must be set when moduleName is unset" ∧
      zeroModule.ValidateDelete = .ok () := by
  refine ⟨⟨_, _, validateCreateRun_eq compile ⟨m, log⟩, rfl⟩,
    ⟨_, _, validateUpdateRun_eq compile ⟨m, log⟩ old, rfl⟩,
    ⟨_, _, rfl, rfl⟩, validateModprobeRun_eq m, ?_, rfl, rfl, rfl⟩
  intro hname hra hok
  have hcr : m.ValidateCreate compile
      = .error "load and unload rawArgs must be set when moduleName is unset" := by
    unfold Module.ValidateCreate
    rw [hok]
    unfold Module.validateModprobe
    simp [hname, hra]
  exact ⟨hcr, hcr⟩

/-- C15 at the zero-valued resource with an empty log. -/
theorem validate_total_witness :
    zeroModule.Spec.ModuleLoader.Container.Modprobe.ModuleName = "" ∧
      zeroModule.Spec.ModuleLoader.Container.Modprobe.RawArgs = none ∧
      zeroModule.validateKernelMapping exampleCompile = .ok () ∧
      zeroModule.ValidateCreate exampleCompile
        = .error "load and unload rawArgs must be set when moduleName is unset" :=
  ⟨rfl, rfl, rfl,
    ((validate_total exampleCompile zeroModule [] zeroModule).2.2.2.2.1 rfl rfl rfl).1⟩

/-- C18: with an empty list of kernel mappings rule group A accepts, whatever
the container's default `containerImage` is (empty included), and
`ValidateCreate` returns the result of `validateModprobe`. -/
theorem validateCreate_no_mappings (compile : Compiler) (m : Module)
    (hnil : m.Spec.ModuleLoader.Container.KernelMappings = []) :
    m.validateKernelMapping compile = .ok () ∧
      m.ValidateCreate compile = m.validateModprobe := by
  have hok : m.validateKernelMapping compile = .ok () := by
    unfold Module.validateKernelMapping
    simp only [hnil]
    rfl
  refine ⟨hok, ?_⟩
  unfold Module.ValidateCreate
  rw [hok]

/-- C18 at a resource without mappings and without a container image. -/
theorem validateCreate_no_mappings_witness :
    namedModule.Spec.ModuleLoader.Container.KernelMappings = [] ∧
      namedModule.Spec.ModuleLoader.Container.ContainerImage = "" ∧
      namedModule.validateKernelMapping exampleCompile = .ok () ∧
      namedModule.ValidateCreate exampleCompile = namedModule.validateModprobe :=
  ⟨rfl, rfl, validateCreate_no_mappings exampleCompile namedModule rfl⟩

/-! ## Order of the checks and the role of the images -/

/-- C17: for the first violating mapping, at index `i`, the checks report in
the order exclusivity, missing selector, compilation, image: with both
selectors set the error is the mutual-exclusivity one whatever the pattern and
the images are, with no selector set it is the missing-selector one, with only
`regexp` set and not compiling it is "invalid regexp at index i: " followed by
the compiler's error whatever the images are, and the missing-image error
needs the three earlier checks to pass. -/
theorem validateKernelMapping_check_order (compile : Compiler) (m : Module) (i : Nat)
    (km : KernelMapping)
    (hi : m.Spec.ModuleLoader.Container.KernelMappings[i]? = some km)
    (hbefore : ∀ j : Nat, j < i → ∀ kj,
      m.Spec.ModuleLoader.Container.KernelMappings[j]? = some kj →
        MappingOk compile m.Spec.ModuleLoader.Container kj) :
    (km.Literal ≠ "" ∧ km.Regexp ≠ "" →
        m.validateKernelMapping compile = .error
          ("regexp and literal are mutually exclusive properties at kernelMappings["
            ++ toString i ++ "]")) ∧
      (km.Literal = "" ∧ km.Regexp = "" →
        m.validateKernelMapping compile = .error
          ("regexp or literal must be set at kernelMappings[" ++ toString i ++ "]")) ∧
      (∀ e, km.Literal = "" → km.Regexp ≠ "" → compile km.Regexp = .error e →
        m.validateKernelMapping compile = .error
          ("invalid regexp at index " ++ toString i ++ ": " ++ e)) ∧
      (m.validateKernelMapping compile = .error
          ("missing spec.moduleLoader.container.kernelMappings[" ++ toString i
            ++ "].containerImage") →
        ((km.Literal ≠ "" ∧ km.Regexp = "") ∨ (km.Literal = "" ∧ km.Regexp ≠ "")) ∧
          compile km.Regexp = .ok ()) := by
  have hfirst := fun msg => validateKernelMapping_first compile m i km msg hi hbefore
  refine ⟨?_, ?_, ?_, ?_⟩
  · rintro ⟨hl, hr⟩
    exact hfirst _ (kernelMappingStep_both compile _ i km hr hl)
  · rintro ⟨hl, hr⟩
    exact hfirst _ (kernelMappingStep_neither compile _ i km hr hl)
  · intro e hl hr he
    exact hfirst _ (kernelMappingStep_invalid compile _ i km e (Or.inr ⟨hl, hr⟩) he)
  · intro hmiss
    by_cases hr : km.Regexp = "" <;> by_cases hl : km.Literal = ""
    · have h := hfirst _ (kernelMappingStep_neither compile _ i km hr hl)
      rw [hmiss] at h
      have hd := congrArg (fun s : String => s.data.head?) (Except.error.inj h)
      simp [String.data_append] at hd
    · rcases except_unit_cases (compile km.Regexp) with hok | ⟨e, he⟩
      · exact ⟨Or.inl ⟨hl, hr⟩, hok⟩
      · have h := hfirst _ (kernelMappingStep_invalid compile _ i km e (Or.inl ⟨hl, hr⟩) he)
        rw [hmiss] at h
        have hd := congrArg (fun s : String => s.data.head?) (Except.error.inj h)
        simp [String.data_append] at hd
    · rcases except_unit_cases (compile km.Regexp) with hok | ⟨e, he⟩
      · exact ⟨Or.inr ⟨hl, hr⟩, hok⟩
      · have h := hfirst _ (kernelMappingStep_invalid compile _ i km e (Or.inr ⟨hl, hr⟩) he)
        rw [hmiss] at h
        have hd := congrArg (fun s : String => s.data.head?) (Except.error.inj h)
        simp [String.data_append] at hd
    · have h := hfirst _ (kernelMappingStep_both compile _ i km hr hl)
      rw [hmiss] at h
      have hd := congrArg (fun s : String => s.data.head?) (Except.error.inj h)
      simp [String.data_append] at hd

/-- C17 at a mapping that fails every check (the exclusivity error is
reported) and at a mapping with only an uncompilable pattern and no image (the
invalid-regexp error is reported). -/
theorem validateKernelMapping_check_order_witness :
    allChecksFailModule.Spec.ModuleLoader.Container.KernelMappings[0]?
        = some ⟨"", "5.14.0", "("⟩ ∧
      regexpNoImageModule.Spec.ModuleLoader.Container.KernelMappings[0]?
        = some ⟨"", "", "("⟩ ∧
      exampleCompile "(" = .error "error parsing regexp: missing closing ): `(`" ∧
      allChecksFailModule.validateKernelMapping exampleCompile = .error
        "regexp and literal are mutually exclusive properties at kernelMappings[0]" ∧
      regexpNoImageModule.validateKernelMapping exampleCompile = .error
        "invalid regexp at index 0: error parsing regexp: missing closing ): `(`" :=
  ⟨rfl, rfl, rfl,
    (validateKernelMapping_check_order exampleCompile allChecksFailModule 0
      ⟨"", "5.14.0", "("⟩ rfl
      (fun (j : Nat) (hj : j < 0) => absurd hj (Nat.not_lt_zero j))).1
      ⟨by decide, by decide⟩,
    (validateKernelMapping_check_order exampleCompile regexpNoImageModule 0
      ⟨"", "", "("⟩ rfl
      (fun (j : Nat) (hj : j < 0) => absurd hj (Nat.not_lt_zero j))).2.2.1
      "error parsing regexp: missing closing ): `(`" rfl (by decide) rfl⟩

/-- A mapping of the list with one image replaced is a mapping of the list or
a mapping of the list with its image replaced. -/
theorem mem_replaceImageAt (img : String) (k : Nat) (kms : List KernelMapping)
    (km' : KernelMapping) (h : km' ∈ replaceImageAt img k kms) :
    km' ∈ kms ∨ ∃ km ∈ kms, km' = { km with ContainerImage := img } := by
  induction kms generalizing k with
  | nil => simp [replaceImageAt] at h
  | cons a rest ih =>
    cases k with
    | zero =>
      simp only [replaceImageAt, List.mem_cons] at h
      rcases h with h | h
      · exact Or.inr ⟨a, List.mem_cons_self a rest, h⟩
      · exact Or.inl (List.mem_cons_of_mem a h)
    | succ k =>
      simp only [replaceImageAt, List.mem_cons] at h
      rcases h with h | h
      · exact Or.inl (h ▸ List.mem_cons_self a rest)
      · rcases ih k h with h' | ⟨km, hmem, heq⟩
        · exact Or.inl (List.mem_cons_of_mem a h')
        · exact Or.inr ⟨km, List.mem_cons_of_mem a hmem, heq⟩

/-- With a container image, an iteration that returns does so with one of the
first three messages. -/
theorem kernelMappingStep_of_container_image (compile : Compiler)
    (c : ModuleLoaderContainerSpec) (idx : Nat) (km : KernelMapping) (msg : String)
    (himg : c.ContainerImage ≠ "")
    (hstep : kernelMappingStep compile c idx km = some msg) :
    msg = "regexp and literal are mutually exclusive properties at kernelMappings["
        ++ toString idx ++ "]" ∨
      msg = "regexp or literal must be set at kernelMappings[" ++ toString idx ++ "]" ∨
      ∃ e, msg = "invalid regexp at index " ++ toString idx ++ ": " ++ e := by
  unfold kernelMappingStep at hstep
  by_cases hr : km.Regexp = "" <;> by_cases hl : km.Literal = "" <;>
    rcases except_unit_cases (compile km.Regexp) with hc | ⟨e, hc⟩ <;>
    simp [hr, hl, hc, himg] at hstep <;>
    first
      | exact Or.inl hstep.symm
      | exact Or.inr (Or.inl hstep.symm)
      | exact Or.inr (Or.inr ⟨_, hstep.symm⟩)
      | (rw [hr] at hc; simp [hc] at hstep; exact Or.inr (Or.inr ⟨_, hstep.symm⟩))
      | (rw [hr] at hc; simp [hc] at hstep)

/-- C19: supplying an image keeps an accepted resource accepted: after the
container's default `containerImage`, or the `containerImage` of the mapping at
any index, is replaced with a non-empty string, `ValidateCreate` still
accepts; and when the container's default `containerImage` is non-empty,
`validateKernelMapping` does not return the missing-image error for any
index. -/
theorem validateCreate_image_monotone (compile : Compiler) (m : Module) :
    (m.ValidateCreate compile = .ok () →
        ∀ img : String, img ≠ "" →
          (m.withContainerImage img).ValidateCreate compile = .ok () ∧
          ∀ k : Nat, (m.withMappingImage k img).ValidateCreate compile = .ok ()) ∧
      (m.Spec.ModuleLoader.Container.ContainerImage ≠ "" →
        ∀ i : Nat, m.validateKernelMapping compile ≠ .error
          ("missing spec.moduleLoader.container.kernelMappings[" ++ toString i
            ++ "].containerImage")) := by
  constructor
  · intro hacc img himg
    obtain ⟨hA, hB⟩ := (validateCreate_ok_iff compile m).mp hacc
    have hall : ∀ km ∈ m.mappings, MappingOk compile m.container km := by
      unfold Module.validateKernelMapping at hA
      exact (rangeKernelMappings_ok_iff compile _ _ 0).mp hA
    constructor
    · rw [validateCreate_ok_iff]
      refine ⟨?_, hB⟩
      unfold Module.validateKernelMapping
      rw [rangeKernelMappings_ok_iff]
      intro km hmem
      obtain ⟨hone, hcomp, _⟩ := hall km hmem
      exact ⟨hone, hcomp, Or.inr himg⟩
    · intro k
      rw [validateCreate_ok_iff]
      refine ⟨?_, hB⟩
      unfold Module.withMappingImage
      rw [validateKernelMapping_withMappings_ok_iff]
      intro km' hmem'
      rcases mem_replaceImageAt img k m.mappings km' hmem' with hmem | ⟨km, hmem, heq⟩
      · exact hall km' hmem
      · obtain ⟨hone, hcomp, _⟩ := hall km hmem
        subst heq
        exact ⟨hone, hcomp, Or.inl himg⟩
  · intro himg i hmiss
    obtain ⟨j, km, _, _, _, hstep⟩ := validateKernelMapping_error_inv compile m _ hmiss
    rcases kernelMappingStep_of_container_image compile m.container j km _ himg hstep
      with h | h | ⟨e, h⟩
    · have hd := congrArg (fun s : String => s.data.head?) h
      simp [String.data_append] at hd
    · have hd := congrArg (fun s : String => s.data.head?) h
      simp [String.data_append] at hd
    · have hd := congrArg (fun s : String => s.data.head?) h
      simp [String.data_append] at hd

/-- C19 at an accepted resource: it stays accepted with another container
image and with an image on its second mapping, and its rule group A does not
return the missing-image error. -/
theorem validateCreate_image_monotone_witness :
    literalOnlyModule.ValidateCreate exampleCompile = .ok () ∧
      (literalOnlyModule.withContainerImage "other-img").ValidateCreate exampleCompile
        = .ok () ∧
      (literalOnlyModule.withMappingImage 1 "other-img").ValidateCreate exampleCompile
        = .ok () ∧
      literalOnlyModule.Spec.ModuleLoader.Container.ContainerImage ≠ "" ∧
      literalOnlyModule.validateKernelMapping exampleCompile ≠ .error
        ("missing spec.moduleLoader.container.kernelMappings[" ++ toString 0
          ++ "].containerImage") :=
  ⟨rfl,
    ((validateCreate_image_monotone exampleCompile literalOnlyModule).1 rfl
      "other-img" (by decide)).1,
    ((validateCreate_image_monotone exampleCompile literalOnlyModule).1 rfl
      "other-img" (by decide)).2 1,
    by decide,
    (validateCreate_image_monotone exampleCompile literalOnlyModule).2 (by decide) 0⟩

end KMM
